import Mathlib

/-!
Verification of the CivicTrack backend's geospatial filtering and
moderation-threshold core (`server.js`).

The embedding models the `getDistance` haversine function over real numbers
and the filtering logic of the `GET /api/issues`, `GET /api/admin/issues`
and `GET /api/admin/analytics` handlers as pure functions over a snapshot
list of issue records. Query parameters are modelled as `Option` values
(`none` is an absent parameter), mirroring the `req.query` presence checks
of the handlers; the in-memory table is modelled as the input list, with
`db.all` on a `WHERE` clause modelled as an order-preserving `List.filter`.
-/

/-- An issue record, mirroring the columns of the `issues` table in
`server.js`. -/
structure Issue where
  id : String
  title : String
  description : String
  category : String
  status : String
  lat : ℝ
  lng : ℝ
  userId : String
  flags : Int
  createdAt : String

/-- The optional query parameters of `GET /api/issues` after the HTTP
layer's string-to-number coercion; `none` models an absent parameter. -/
structure FilterQuery where
  status : Option String
  category : Option String
  distance : Option ℝ
  lat : Option ℝ
  lng : Option ℝ

/-- The error outcomes of the `GET /api/issues` handler's filter
validation (both mapped to HTTP 400 by the excluded HTTP layer). -/
inductive FilterError where
  | invalidStatus : FilterError
  | invalidCategory : FilterError
deriving DecidableEq

/-- The valid status list checked by `GET /api/issues`. -/
def validStatuses : List String := ["Reported", "In Progress", "Resolved"]

/-- The valid category list checked by `POST /api/issues` and
`GET /api/issues`. -/
def validCategories : List String :=
  ["Roads", "Lighting", "Water Supply", "Cleanliness", "Public Safety", "Obstructions"]

/-- The haversine `a` term of `getDistance` in `server.js`:
`sin(dLat/2)^2 + cos(lat1 rad) * cos(lat2 rad) * sin(dLng/2)^2` with
`dLat = (lat2-lat1)*pi/180` and `dLng = (lng2-lng1)*pi/180`. -/
noncomputable def haversineA (lat1 lng1 lat2 lng2 : ℝ) : ℝ :=
  Real.sin ((lat2 - lat1) * Real.pi / 180 / 2) *
      Real.sin ((lat2 - lat1) * Real.pi / 180 / 2) +
    Real.cos (lat1 * Real.pi / 180) * Real.cos (lat2 * Real.pi / 180) *
      Real.sin ((lng2 - lng1) * Real.pi / 180 / 2) *
      Real.sin ((lng2 - lng1) * Real.pi / 180 / 2)

/-- JavaScript `Math.atan2` over the reals (signed zeros are not
representable; `atan2 0 0 = 0` as in JavaScript). -/
noncomputable def atan2 (y x : ℝ) : ℝ :=
  if 0 < x then Real.arctan (y / x)
  else if x < 0 then
    (if 0 ≤ y then Real.arctan (y / x) + Real.pi else Real.arctan (y / x) - Real.pi)
  else if 0 < y then Real.pi / 2
  else if y < 0 then -(Real.pi / 2)
  else 0

/-- `getDistance` from `server.js`: great-circle distance in kilometers by
the haversine formula, Earth radius 6371 km,
`c = 2 * atan2(sqrt(a), sqrt(1-a))`, result `R * c`. -/
noncomputable def getDistance (lat1 lng1 lat2 lng2 : ℝ) : ℝ :=
  6371 * (2 * atan2 (Real.sqrt (haversineA lat1 lng1 lat2 lng2))
    (Real.sqrt (1 - haversineA lat1 lng1 lat2 lng2)))

/-- The status validation of `GET /api/issues`: a supplied `status` other
than the sentinel `all` must be in `validStatuses`, else HTTP 400. -/
def badStatus (q : FilterQuery) : Bool :=
  match q.status with
  | none => false
  | some s => s != "all" && !(validStatuses.contains s)

/-- The category validation of `GET /api/issues`: a supplied `category`
other than the sentinel `all` must be in `validCategories`, else 400. -/
def badCategory (q : FilterQuery) : Bool :=
  match q.category with
  | none => false
  | some c => c != "all" && !(validCategories.contains c)

/-- The SQL `WHERE` clause assembled by `GET /api/issues`: always
`flags < 3`, plus `status = ?` when status is supplied and not `all`,
plus `category = ?` when category is supplied and not `all`. -/
def sqlWhere (q : FilterQuery) (i : Issue) : Bool :=
  decide (i.flags < 3) &&
    (match q.status with
     | none => true
     | some s => s == "all" || i.status == s) &&
    (match q.category with
     | none => true
     | some c => c == "all" || i.category == c)

/-- The JavaScript post-filter of `GET /api/issues`: kept unconditionally
when `lat` or `lng` is absent, else kept when the distance from the origin
is at most `distance` (defaulted to 5). -/
noncomputable def withinRadius (q : FilterQuery) (i : Issue) : Bool :=
  match q.lat, q.lng with
  | some la, some ln => decide (getDistance la ln i.lat i.lng ≤ q.distance.getD 5)
  | _, _ => true

/-- The `GET /api/issues` handler (the spec's `selectVisible`): validate
`status` and `category`, then filter by the SQL `WHERE` clause and the
radius post-filter, preserving input order. -/
noncomputable def selectVisible (issues : List Issue) (q : FilterQuery) :
    Except FilterError (List Issue) :=
  if badStatus q then Except.error FilterError.invalidStatus
  else if badCategory q then Except.error FilterError.invalidCategory
  else Except.ok ((issues.filter (sqlWhere q)).filter (withinRadius q))

/-- The `GET /api/admin/issues` handler (the spec's `selectFlagged`):
`SELECT * FROM issues WHERE flags >= 3`, no other predicate. -/
def selectFlagged (issues : List Issue) : List Issue :=
  issues.filter (fun i => decide (3 ≤ i.flags))

/-- The `GET /api/admin/analytics` handler (the spec's `categoryCounts`):
`SELECT category, COUNT(*) FROM issues GROUP BY category`, one row per
category occurring in the table, counting every record. -/
def categoryCounts (issues : List Issue) : List (String × Nat) :=
  ((issues.map (fun i => i.category)).dedup).map
    (fun c => (c, (issues.filter (fun i => i.category == c)).length))

/-- A sample unflagged issue located at the origin. -/
def izero : Issue :=
  ⟨"i1", "pothole", "deep pothole", "Roads", "Reported", 0, 0, "u1", 0, "2025-01-01"⟩

/-- A sample issue with `flags = 5`, hidden by the spam gate. -/
def iflagged : Issue :=
  ⟨"i2", "spam", "spam entry", "Lighting", "Reported", 0, 0, "u2", 5, "2025-01-02"⟩

/-- The empty filter query: every parameter absent. -/
def emptyQuery : FilterQuery := ⟨none, none, none, none, none⟩

/-- A query supplying only the origin (0, 0). -/
def originQuery : FilterQuery := ⟨none, none, none, some 0, some 0⟩

/-- A query supplying only an invalid status value. -/
def badStatusQuery : FilterQuery := ⟨some "InvalidStatus", none, none, none, none⟩

/-- Helper: the haversine term vanishes for identical points. -/
theorem haversineA_self (la ln : ℝ) : haversineA la ln la ln = 0 := by
  unfold haversineA
  simp

/-- Helper: `getDistance` returns 0 for identical points. -/
theorem getDistance_self (la ln : ℝ) : getDistance la ln la ln = 0 := by
  unfold getDistance
  rw [haversineA_self]
  norm_num [atan2, Real.arctan_zero]

/-- Helper: the haversine term is symmetric in its two coordinate pairs. -/
theorem haversineA_comm (lat1 lng1 lat2 lng2 : ℝ) :
    haversineA lat1 lng1 lat2 lng2 = haversineA lat2 lng2 lat1 lng1 := by
  unfold haversineA
  have h1 : (lat1 - lat2) * Real.pi / 180 / 2 = -((lat2 - lat1) * Real.pi / 180 / 2) := by ring
  have h2 : (lng1 - lng2) * Real.pi / 180 / 2 = -((lng2 - lng1) * Real.pi / 180 / 2) := by ring
  rw [h1, h2, Real.sin_neg, Real.sin_neg]
  ring

/-- C7: `getDistance` is symmetric: for every two coordinate pairs A and B,
`getDistance(lat1, lng1, lat2, lng2) = getDistance(lat2, lng2, lat1, lng1)`. -/
theorem getDistance_symm (lat1 lng1 lat2 lng2 : ℝ) :
    getDistance lat1 lng1 lat2 lng2 = getDistance lat2 lng2 lat1 lng1 := by
  unfold getDistance
  rw [haversineA_comm]

/-- Helper: `atan2 y x` lies in `[0, pi/2]` when both arguments are
nonnegative. -/
theorem atan2_nonneg_le (y x : ℝ) (hy : 0 ≤ y) (hx : 0 ≤ x) :
    0 ≤ atan2 y x ∧ atan2 y x ≤ Real.pi / 2 := by
  unfold atan2
  rcases lt_or_eq_of_le hx with hx' | hx'
  · rw [if_pos hx']
    refine ⟨?_, (Real.arctan_lt_pi_div_two _).le⟩
    rw [← Real.arctan_zero]
    exact Real.arctan_strictMono.monotone (div_nonneg hy hx'.le)
  · rw [if_neg (by rw [← hx']; exact lt_irrefl 0),
      if_neg (by rw [← hx']; exact lt_irrefl 0)]
    rcases lt_or_eq_of_le hy with hy' | hy'
    · rw [if_pos hy']
      exact ⟨by positivity, le_refl _⟩
    · rw [if_neg (by rw [← hy']; exact lt_irrefl 0),
        if_neg (by rw [← hy']; exact lt_irrefl 0)]
      exact ⟨le_refl _, by positivity⟩

/-- Helper: the haversine term always lies in `[0, 1]`, so neither square
root in `getDistance` is taken of a negative number. -/
theorem haversineA_mem (lat1 lng1 lat2 lng2 : ℝ) :
    0 ≤ haversineA lat1 lng1 lat2 lng2 ∧ haversineA lat1 lng1 lat2 lng2 ≤ 1 := by
  unfold haversineA
  have harg : (lat2 - lat1) * Real.pi / 180 / 2 =
      (lat2 * Real.pi / 180 - lat1 * Real.pi / 180) / 2 := by ring
  rw [harg]
  set p1 := lat1 * Real.pi / 180 with hp1
  set p2 := lat2 * Real.pi / 180 with hp2
  set s := Real.sin ((p2 - p1) / 2) with hs
  set d := Real.sin ((lng2 - lng1) * Real.pi / 180 / 2) with hd
  have hkey : s * s + Real.cos p1 * Real.cos p2 = (1 + Real.cos (p1 + p2)) / 2 := by
    have h1 : s ^ 2 = 1 / 2 - Real.cos (2 * ((p2 - p1) / 2)) / 2 := Real.sin_sq_eq_half_sub _
    have h2 : (2 : ℝ) * ((p2 - p1) / 2) = p2 - p1 := by ring
    rw [h2] at h1
    have h3 : Real.cos (p2 - p1) = Real.cos p2 * Real.cos p1 + Real.sin p2 * Real.sin p1 :=
      Real.cos_sub _ _
    have h4 : Real.cos (p1 + p2) = Real.cos p1 * Real.cos p2 - Real.sin p1 * Real.sin p2 :=
      Real.cos_add _ _
    nlinarith [h1, h3, h4]
  have hd0 : 0 ≤ d * d := mul_self_nonneg d
  have hd1 : d * d ≤ 1 := by
    nlinarith [Real.neg_one_le_sin ((lng2 - lng1) * Real.pi / 180 / 2),
      Real.sin_le_one ((lng2 - lng1) * Real.pi / 180 / 2)]
  have hs0 : 0 ≤ s * s := mul_self_nonneg s
  have hs1 : s * s ≤ 1 := by
    nlinarith [Real.neg_one_le_sin ((p2 - p1) / 2), Real.sin_le_one ((p2 - p1) / 2)]
  have hc1 : -1 ≤ Real.cos (p1 + p2) := Real.neg_one_le_cos _
  have hc2 : Real.cos (p1 + p2) ≤ 1 := Real.cos_le_one _
  constructor
  · nlinarith [mul_nonneg hs0 (by linarith : (0:ℝ) ≤ 1 - d * d),
      mul_nonneg (by linarith : (0:ℝ) ≤ (1 + Real.cos (p1 + p2)) / 2) hd0]
  · nlinarith [mul_nonneg (by linarith : (0:ℝ) ≤ 1 - s * s) (by linarith : (0:ℝ) ≤ 1 - d * d),
      mul_nonneg (by linarith : (0:ℝ) ≤ (1 - Real.cos (p1 + p2)) / 2) hd0]

/-- C8: `getDistance` is total: for every real input the haversine term lies
in `[0, 1]` (so no square root of a negative number arises on any branch) and
the distance is a finite value bounded between 0 and `6371 * pi`
(half the Earth circumference); no error branch exists in the computation. -/
theorem getDistance_total_bounds (lat1 lng1 lat2 lng2 : ℝ) :
    0 ≤ haversineA lat1 lng1 lat2 lng2 ∧ haversineA lat1 lng1 lat2 lng2 ≤ 1 ∧
      0 ≤ getDistance lat1 lng1 lat2 lng2 ∧
      getDistance lat1 lng1 lat2 lng2 ≤ 6371 * Real.pi := by
  obtain ⟨h0, h1⟩ := haversineA_mem lat1 lng1 lat2 lng2
  have hb := atan2_nonneg_le (Real.sqrt (haversineA lat1 lng1 lat2 lng2))
    (Real.sqrt (1 - haversineA lat1 lng1 lat2 lng2)) (Real.sqrt_nonneg _) (Real.sqrt_nonneg _)
  refine ⟨h0, h1, ?_, ?_⟩
  · unfold getDistance
    linarith [hb.1]
  · unfold getDistance
    linarith [hb.2]

/-- Helper: the successful result of `selectVisible` is the SQL filter
followed by the radius post-filter. -/
theorem selectVisible_ok (issues : List Issue) (q : FilterQuery)
    (out : List Issue) (h : selectVisible issues q = Except.ok out) :
    out = (issues.filter (sqlWhere q)).filter (withinRadius q) := by
  unfold selectVisible at h
  by_cases h1 : badStatus q = true
  · rw [if_pos h1] at h
    exact absurd h (by simp)
  · rw [if_neg h1] at h
    by_cases h2 : badCategory q = true
    · rw [if_pos h2] at h
      exact absurd h (by simp)
    · rw [if_neg h2] at h
      exact (Except.ok.inj h).symm

/-- C1: `selectVisible` never returns an issue with `flags >= 3`: the spam
gate `flags < 3` is part of the `WHERE` clause regardless of which other
filter fields are supplied. -/
theorem selectVisible_spam_gate (issues : List Issue) (q : FilterQuery)
    (out : List Issue) (h : selectVisible issues q = Except.ok out) :
    ∀ i ∈ out, i.flags < 3 := by
  intro i hi
  rw [selectVisible_ok issues q out h] at hi
  obtain ⟨hi1, _⟩ := List.mem_filter.mp hi
  obtain ⟨_, hsql⟩ := List.mem_filter.mp hi1
  simp only [sqlWhere, Bool.and_eq_true, decide_eq_true_eq] at hsql
  exact hsql.1.1

/-- C1 witness at a concrete input: issues `[izero, iflagged]`, empty
query, output `[izero]`. -/
theorem selectVisible_spam_gate_witness : izero.flags < 3 :=
  selectVisible_spam_gate [izero, iflagged] emptyQuery [izero] rfl izero (by simp)

/-- C6: the sequence returned by `selectVisible` is a sublist of the input:
surviving issues appear in exactly their original relative order, with no
re-sorting. -/
theorem selectVisible_preserves_order (issues : List Issue) (q : FilterQuery)
    (out : List Issue) (h : selectVisible issues q = Except.ok out) :
    out.Sublist issues := by
  rw [selectVisible_ok issues q out h]
  exact (List.filter_sublist _).trans (List.filter_sublist _)

/-- C6 witness at a concrete input. -/
theorem selectVisible_preserves_order_witness :
    List.Sublist [izero] [izero, iflagged] :=
  selectVisible_preserves_order [izero, iflagged] emptyQuery [izero] rfl

/-- Helper: with the empty query, `selectVisible` is exactly the spam
gate. -/
theorem selectVisible_empty_eq (issues : List Issue) :
    selectVisible issues emptyQuery =
      Except.ok (issues.filter (fun i => decide (i.flags < 3))) := by
  unfold selectVisible
  rw [if_neg (by decide), if_neg (by decide)]
  have hws : withinRadius emptyQuery = fun _ => true := rfl
  rw [hws, List.filter_true]
  rw [Except.ok.injEq]
  exact List.filter_congr (fun i _ => by simp [sqlWhere, emptyQuery])

/-- Helper: the admin predicate `flags >= 3` is the boolean negation of the
spam gate `flags < 3`. -/
theorem flag_decide_neg (i : Issue) :
    decide (3 ≤ i.flags) = !decide (i.flags < 3) := by
  rw [← decide_not]
  exact decide_eq_decide.mpr not_lt.symm

/-- C2: `selectVisible` with the empty filter and `selectFlagged` partition
the input exactly: their concatenation is a permutation of the input, every
input issue lands in one of the two results (`flags < 3` in the visible
result, `flags >= 3` in the flagged result), and no issue is in both. -/
theorem visible_flagged_partition (issues : List Issue) (out : List Issue)
    (h : selectVisible issues emptyQuery = Except.ok out) :
    (out ++ selectFlagged issues).Perm issues ∧
      (∀ i ∈ issues, i ∈ out ∨ i ∈ selectFlagged issues) ∧
      (∀ i ∈ out, i.flags < 3) ∧
      (∀ i ∈ selectFlagged issues, 3 ≤ i.flags) ∧
      (∀ i, ¬(i ∈ out ∧ i ∈ selectFlagged issues)) := by
  rw [selectVisible_empty_eq, Except.ok.injEq] at h
  subst h
  have hflag : selectFlagged issues = issues.filter (fun i => !decide (i.flags < 3)) := by
    unfold selectFlagged
    exact List.filter_congr (fun i _ => flag_decide_neg i)
  refine ⟨?_, ?_, ?_, ?_, ?_⟩
  · rw [hflag]
    exact List.filter_append_perm _ issues
  · intro i hi
    by_cases hf : i.flags < 3
    · exact Or.inl (List.mem_filter.mpr ⟨hi, by simpa using hf⟩)
    · exact Or.inr (List.mem_filter.mpr ⟨hi, by simpa using not_lt.mp hf⟩)
  · intro i hi
    simpa using (List.mem_filter.mp hi).2
  · intro i hi
    simpa [selectFlagged] using (List.mem_filter.mp hi).2
  · intro i ⟨h1, h2⟩
    have g1 : i.flags < 3 := by simpa using (List.mem_filter.mp h1).2
    have g2 : 3 ≤ i.flags := by simpa [selectFlagged] using (List.mem_filter.mp h2).2
    omega

/-- C2 witness at a concrete input. -/
theorem visible_flagged_partition_witness :
    ([izero] ++ selectFlagged [izero, iflagged]).Perm [izero, iflagged] ∧
      (izero ∈ ([izero] : List Issue) ∨ izero ∈ selectFlagged [izero, iflagged]) ∧
      izero.flags < 3 :=
  ⟨(visible_flagged_partition [izero, iflagged] [izero] rfl).1,
    (visible_flagged_partition [izero, iflagged] [izero] rfl).2.1 izero (by simp),
    (visible_flagged_partition [izero, iflagged] [izero] rfl).2.2.1 izero (by simp)⟩

/-- Helper: the status validation fails exactly for a supplied status that
is neither the `all` sentinel nor a valid status. -/
theorem badStatus_iff (q : FilterQuery) :
    badStatus q = true ↔ ∃ s, q.status = some s ∧ s ≠ "all" ∧ s ∉ validStatuses := by
  unfold badStatus
  cases hst : q.status with
  | none => simp
  | some s => simp [List.elem_iff, bne_iff_ne]

/-- Helper: the category validation fails exactly for a supplied category
that is neither the `all` sentinel nor a valid category. -/
theorem badCategory_iff (q : FilterQuery) :
    badCategory q = true ↔ ∃ c, q.category = some c ∧ c ≠ "all" ∧ c ∉ validCategories := by
  unfold badCategory
  cases hct : q.category with
  | none => simp
  | some c => simp [List.elem_iff, bne_iff_ne]

/-- C4: `selectVisible` signals an error if and only if the status field is
supplied, differs from the `all` sentinel and is not a valid status, or the
category field is supplied, differs from `all` and is not a valid category;
in every other case it returns a filtered sequence. -/
theorem selectVisible_error_iff (issues : List Issue) (q : FilterQuery) :
    ((∃ e, selectVisible issues q = Except.error e) ↔
      ((∃ s, q.status = some s ∧ s ≠ "all" ∧ s ∉ validStatuses) ∨
        (∃ c, q.category = some c ∧ c ≠ "all" ∧ c ∉ validCategories))) ∧
      (¬((∃ s, q.status = some s ∧ s ≠ "all" ∧ s ∉ validStatuses) ∨
          (∃ c, q.category = some c ∧ c ≠ "all" ∧ c ∉ validCategories)) →
        ∃ out, selectVisible issues q = Except.ok out) := by
  rw [← badStatus_iff, ← badCategory_iff]
  unfold selectVisible
  by_cases h1 : badStatus q = true
  · simp [h1]
  · by_cases h2 : badCategory q = true
    · simp [h1, h2]
    · simp [h1, h2]

/-- C4 witness at a concrete input: `status = "InvalidStatus"` errors. -/
theorem selectVisible_error_iff_witness :
    ∃ e, selectVisible [izero] badStatusQuery = Except.error e :=
  (selectVisible_error_iff [izero] badStatusQuery).1.mpr
    (Or.inl ⟨"InvalidStatus", rfl, by decide, by decide⟩)

/-- C3: when both origin coordinates are supplied, `selectVisible` keeps
exactly those issues, among the survivors of the spam, status and category
gates, whose `getDistance` from the origin is at most the requested radius
(default 5, inclusive boundary); when either origin coordinate is absent,
no issue is excluded on spatial grounds. -/
theorem selectVisible_radius_spec (issues : List Issue) (q : FilterQuery)
    (out : List Issue) (h : selectVisible issues q = Except.ok out) :
    (∀ la ln, q.lat = some la → q.lng = some ln →
      ∀ i, i ∈ out ↔ i ∈ issues.filter (sqlWhere q) ∧
        getDistance la ln i.lat i.lng ≤ q.distance.getD 5) ∧
      ((q.lat = none ∨ q.lng = none) →
        ∀ i, i ∈ out ↔ i ∈ issues.filter (sqlWhere q)) := by
  rw [selectVisible_ok issues q out h]
  constructor
  · intro la ln hla hln i
    rw [List.mem_filter]
    have hw : withinRadius q i =
        decide (getDistance la ln i.lat i.lng ≤ q.distance.getD 5) := by
      unfold withinRadius
      rw [hla, hln]
    rw [hw]
    simp
  · intro hnone i
    rw [List.mem_filter]
    have hw : withinRadius q i = true := by
      unfold withinRadius
      rcases hnone with h' | h'
      · rw [h']
      · rw [h']
        cases q.lat <;> rfl
    rw [hw]
    simp

/-- Helper: concrete evaluation of `selectVisible` with origin (0,0) on a
single issue at the origin. -/
theorem selectVisible_origin_eval :
    selectVisible [izero] originQuery = Except.ok [izero] := by
  have h2 : withinRadius originQuery izero = true := by
    have hz : getDistance 0 0 izero.lat izero.lng = 0 := getDistance_self 0 0
    simp [withinRadius, originQuery, hz]
  unfold selectVisible
  rw [if_neg (by decide), if_neg (by decide), Except.ok.injEq]
  have h1 : List.filter (sqlWhere originQuery) [izero] = [izero] := rfl
  rw [h1]
  rw [List.filter_cons_of_pos h2]
  rfl

/-- C3 witness at a concrete input with the origin supplied. -/
theorem selectVisible_radius_spec_witness :
    izero ∈ ([izero] : List Issue) ↔
      izero ∈ ([izero] : List Issue).filter (sqlWhere originQuery) ∧
        getDistance 0 0 izero.lat izero.lng ≤ originQuery.distance.getD 5 :=
  (selectVisible_radius_spec [izero] originQuery [izero] selectVisible_origin_eval).1
    0 0 rfl rfl izero

/-- C9: the radius filter is monotone in the radius: an issue kept at
radius `r <= r'` is kept at radius `r'`, and the whole `selectVisible`
result at radius `r` is a sublist of the result at radius `r'` when the
other filter fields are held fixed. -/
theorem selectVisible_radius_mono (issues : List Issue) (q : FilterQuery) (r r' : ℝ)
    (hr : r ≤ r') (out out' : List Issue)
    (h : selectVisible issues ⟨q.status, q.category, some r, q.lat, q.lng⟩ = Except.ok out)
    (h' : selectVisible issues ⟨q.status, q.category, some r', q.lat, q.lng⟩ = Except.ok out') :
    (∀ i, withinRadius ⟨q.status, q.category, some r, q.lat, q.lng⟩ i = true →
      withinRadius ⟨q.status, q.category, some r', q.lat, q.lng⟩ i = true) ∧
      out.Sublist out' := by
  have hmono : ∀ i, withinRadius ⟨q.status, q.category, some r, q.lat, q.lng⟩ i = true →
      withinRadius ⟨q.status, q.category, some r', q.lat, q.lng⟩ i = true := by
    intro i hi
    unfold withinRadius at hi ⊢
    cases hla : q.lat with
    | none => rfl
    | some la =>
      cases hln : q.lng with
      | none => rfl
      | some ln =>
        rw [hla, hln] at hi
        simp only [Option.getD_some, decide_eq_true_eq] at hi ⊢
        linarith
  refine ⟨hmono, ?_⟩
  rw [selectVisible_ok _ _ _ h, selectVisible_ok _ _ _ h']
  have hsql : sqlWhere ⟨q.status, q.category, some r, q.lat, q.lng⟩ =
      sqlWhere ⟨q.status, q.category, some r', q.lat, q.lng⟩ := rfl
  rw [hsql]
  exact List.monotone_filter_right _ hmono

/-- C9 witness at a concrete input with radii 1 and 2. -/
theorem selectVisible_radius_mono_witness :
    (1 : ℝ) ≤ 2 ∧ List.Sublist [izero] [izero] :=
  ⟨by norm_num,
    (selectVisible_radius_mono [izero] emptyQuery 1 2 (by norm_num) [izero] [izero] rfl rfl).2⟩

/-- C5: `categoryCounts` counts every record exactly once, flagged ones
included: the sum of all counts equals the number of input issues. -/
theorem categoryCounts_sum (issues : List Issue) :
    ((categoryCounts issues).map Prod.snd).sum = issues.length := by
  unfold categoryCounts
  rw [List.map_map]
  have hcnt : ∀ c : String,
      (Prod.snd ∘ fun c => (c, (issues.filter (fun i => i.category == c)).length)) c =
        List.count c (issues.map (fun i => i.category)) := by
    intro c
    simp only [Function.comp_apply]
    rw [List.count_eq_countP, List.countP_map, List.countP_eq_length_filter]
    rfl
  rw [List.map_congr_left (fun c _ => hcnt c), List.sum_map_count_dedup_eq_length,
    List.length_map]

/-- C10: every entry of `categoryCounts` has a count of at least 1 and names
a category that occurs in the input, so a category with no issues is absent
rather than reported with a zero count. -/
theorem categoryCounts_occurring (issues : List Issue) (c : String) (n : ℕ)
    (h : (c, n) ∈ categoryCounts issues) :
    1 ≤ n ∧ c ∈ issues.map (fun i => i.category) := by
  unfold categoryCounts at h
  obtain ⟨c', hc', heq⟩ := List.mem_map.mp h
  rw [Prod.mk.injEq] at heq
  obtain ⟨h1, h2⟩ := heq
  subst h1
  have hcmem : c' ∈ issues.map (fun i => i.category) := List.mem_dedup.mp hc'
  refine ⟨?_, hcmem⟩
  obtain ⟨i, hi, hic⟩ := List.mem_map.mp hcmem
  have hmemf : i ∈ issues.filter (fun i => i.category == c') :=
    List.mem_filter.mpr ⟨hi, by simp [hic]⟩
  have hlen : 0 < (issues.filter (fun i => i.category == c')).length :=
    List.length_pos.mpr (List.ne_nil_of_mem hmemf)
  omega

/-- C10 witness at a concrete input. -/
theorem categoryCounts_occurring_witness :
    1 ≤ 1 ∧ "Roads" ∈ ([izero] : List Issue).map (fun i => i.category) :=
  categoryCounts_occurring [izero] "Roads" 1 (by decide)
